import Mathlib

/-!
Verification development for the checkpoint-and-resume subsystem of the
PaperReading repository.

The Python sources under `src/utils/checkpoint.py` and `src/graph/workflow.py`
are shallowly embedded as pure Lean functions:

* the local filesystem (the snapshot store) is modelled as an explicit
  `Store` value listing directories, their files, and each checkpoint file's
  parse result (`none` models an unreadable or corrupt JSON file);
* operations that can raise in Python return `Except String _`; the results of
  the fallible primitives (`os.makedirs`, `open(..., 'w')`) are injected as
  explicit `Except` parameters so that every error path of the source can be
  exercised;
* `os.path.abspath` is passed in as an opaque function `ap : String → String`;
* timestamps are passed in as explicit parameters (the source formats
  `datetime.now()`); machine times (`st_mtime`, sizes) are natural numbers.

Chinese string literals reproduce the exact messages of the source.
-/

namespace PaperReading

/-! ## Character and string utilities mirroring Python primitives -/

/-- The `\w` of Python's `re` restricted to ASCII: letters, digits, underscore. -/
def isWordChar (c : Char) : Bool := c.isAlpha || c.isDigit || c = '_'

/-- The `str.startswith`, computed on the character lists. -/
def pyStartsWith (s pre : String) : Bool := pre.data.isPrefixOf s.data

/-- The `str.endswith`, computed on the character lists. -/
def pyEndsWith (s suf : String) : Bool := suf.data.isSuffixOf s.data

/-- The `str.strip()` for ASCII whitespace. -/
def pyStrip (s : String) : String :=
  String.mk (((s.data.dropWhile Char.isWhitespace).reverse.dropWhile
    Char.isWhitespace).reverse)

/-- The `str.split(sep)` for a single-character separator, on character lists;
always returns at least one (possibly empty) group. -/
def splitOnChar (sep : Char) : List Char → List (List Char)
  | [] => [[]]
  | c :: cs =>
    match splitOnChar sep cs with
    | [] => [[]]
    | g :: gs => if c = sep then [] :: g :: gs else (c :: g) :: gs

/-- The `str.split(sep)` for a single-character separator. -/
def pySplit (s : String) (sep : Char) : List String :=
  (splitOnChar sep s.data).map String.mk

/-- Digits-only numeral parse (helper for `pyToInt`). -/
def natOfDigits (ds : List Char) : Option Nat :=
  match ds with
  | [] => none
  | _ =>
    if ds.all Char.isDigit then
      some (ds.foldl (fun acc c => acc * 10 + (c.toNat - '0'.toNat)) 0)
    else none

/-- The `int(s)` restricted to an optional leading minus sign and decimal digits
(Python additionally tolerates surrounding whitespace, a plus sign, and
digit-group underscores, none of which occur in the directory-name fragments
this is applied to). -/
def pyToInt (s : String) : Option Int :=
  match s.data with
  | '-' :: ds => (natOfDigits ds).map fun n => -(n : Int)
  | ds => (natOfDigits ds).map fun n => (n : Int)

/-- Lexicographic comparison of character lists by code point, Python's
string ordering. -/
def listCharLt : List Char → List Char → Bool
  | [], [] => false
  | [], _ :: _ => true
  | _ :: _, [] => false
  | a :: as, b :: bs =>
    if a.val < b.val then true
    else if b.val < a.val then false
    else listCharLt as bs

/-- Python `s1 < s2` on strings. -/
def pyStrLt (s t : String) : Bool := listCharLt s.data t.data

/-- The `str.replace(pat, sub)`: non-overlapping left-to-right replacement.  The
fuel argument (instantiated with the input length) makes the recursion
structural; an empty pattern is left unreplaced (the source only replaces
the non-empty literals `checkpoint_` and `.json`). -/
def replaceFuel (pat sub : List Char) : Nat → List Char → List Char
  | 0, cs => cs
  | _ + 1, [] => []
  | fuel + 1, c :: cs =>
    if pat.isPrefixOf (c :: cs) && !pat.isEmpty then
      sub ++ replaceFuel pat sub fuel (List.drop (pat.length - 1) cs)
    else c :: replaceFuel pat sub fuel cs

/-- The `str.replace(pat, sub)`. -/
def pyReplace (s pat sub : String) : String :=
  String.mk (replaceFuel pat.data sub.data s.data.length s.data)

/-- The `os.path.basename` for POSIX paths: the part after the last `/`. -/
def basename (p : String) : String :=
  String.mk (p.data.foldl (fun acc c => if c = '/' then [] else acc ++ [c]) [])

/-! ## The arXiv-ID regular expression

`ARXIV_ID_PATTERN = r'\b(\d{4}\.\d{4,5})(v\d+)?\b'` (checkpoint.py line 21),
used via `re.search` in `extract_arxiv_id_from_filename`.  The matcher below
implements exactly this pattern: a scan over all start positions (leftmost
match wins), a word boundary before the first digit, four digits, a dot,
five-then-four digits (greedy with backtracking), an optional greedy `v\d+`
group, and a word boundary after the match. -/

/-- Take exactly `n` decimal digits from the front of the list. -/
def takeExactDigits : Nat → List Char → Option (List Char × List Char)
  | 0, cs => some ([], cs)
  | _ + 1, [] => none
  | n + 1, c :: cs =>
    if c.isDigit then (takeExactDigits n cs).map (fun p => (c :: p.1, p.2)) else none

/-- Word boundary after a digit: end of input or a non-word character. -/
def boundaryAfter : List Char → Bool
  | [] => true
  | c :: _ => !isWordChar c

/-- Given the matched main group and the remaining input, try the optional
`(v\d+)?` group followed by the trailing `\b`.  When the version group matches
but the trailing boundary fails, the regex engine backtracks to the empty
optional group (shorter `\d+` runs can never restore the boundary because the
next character would be a digit). -/
def tryVersion (main : String) (r : List Char) : Option (String × Option String) :=
  match r with
  | 'v' :: r2 =>
    let ds := r2.takeWhile Char.isDigit
    let r3 := r2.dropWhile Char.isDigit
    if ds.isEmpty then
      if boundaryAfter r then some (main, none) else none
    else if boundaryAfter r3 then some (main, some (String.mk ('v' :: ds)))
    else if boundaryAfter r then some (main, none) else none
  | _ => if boundaryAfter r then some (main, none) else none

/-- Try the whole pattern at the current position (leading boundary already
checked): `\d{4}` `\.` `\d{4,5}` (greedy) `(v\d+)?` `\b`. -/
def tryMain (cs : List Char) : Option (String × Option String) :=
  match takeExactDigits 4 cs with
  | none => none
  | some (a, r1) =>
    match r1 with
    | '.' :: r2 =>
      let try5 := match takeExactDigits 5 r2 with
        | some (b, r3) => tryVersion (String.mk (a ++ '.' :: b)) r3
        | none => none
      match try5 with
      | some res => some res
      | none =>
        match takeExactDigits 4 r2 with
        | some (b, r3) => tryVersion (String.mk (a ++ '.' :: b)) r3
        | none => none
    | _ => none

/-- Scan for the leftmost match, carrying the previous character for the
leading `\b` test.  A position can only start a match when the previous
character is absent or a non-word character (the first matched character is a
digit, hence a word character). -/
def searchAux : Option Char → List Char → Option (String × Option String)
  | _, [] => none
  | prev, c :: rest =>
    let ok := match prev with
      | none => true
      | some p => !isWordChar p
    match (if ok then tryMain (c :: rest) else none) with
    | some r => some r
    | none => searchAux (some c) rest

/-- The `re.search(ARXIV_ID_PATTERN, s)`, returning `(group 1, group 2)`. -/
def arxivSearch (s : String) : Option (String × Option String) :=
  searchAux none s.data

/-- The `extract_arxiv_id_from_filename` (checkpoint.py lines 24-48): extract the
arXiv ID from the basename; append the default version `v1` when the version
group is missing. -/
def extract_arxiv_id_from_filename (paper_path : String) : Option String :=
  let filename := basename paper_path
  match arxivSearch filename with
  | some (arxiv_id, some version) => some (arxiv_id ++ version)
  | some (arxiv_id, none) => some (arxiv_id ++ "v1")
  | none => none

/-! ## Content-based extraction

`extract_arxiv_id_from_content` (checkpoint.py lines 51-79) searches the first
3000 characters for `arXiv:(\d{4}\.\d{4,5}(?:v\d+)?)` then
`arxiv\.org/abs/(\d{4}\.\d{4,5})`, both case-insensitive (so the literal text
and the `v` marker match either case).  Neither pattern has word boundaries. -/

/-- Case-insensitive literal prefix match; returns the rest of the input. -/
def matchLitCI : List Char → List Char → Option (List Char)
  | [], cs => some cs
  | _ :: _, [] => none
  | l :: ls, c :: cs => if c.toLower = l.toLower then matchLitCI ls cs else none

/-- The `\d{4}\.\d{4,5}(?:v\d+)?` with no trailing boundary (greedy, so the
five-digit run and the version group are taken whenever available); returns
the matched text. -/
def matchIdLoose (cs : List Char) : Option (List Char) :=
  match takeExactDigits 4 cs with
  | none => none
  | some (a, r1) =>
    match r1 with
    | '.' :: r2 =>
      match takeExactDigits 4 r2 with
      | none => none
      | some (b4, r3) =>
        let (b, r') := match r3 with
          | c :: rest => if c.isDigit then (b4 ++ [c], rest) else (b4, r3)
          | [] => (b4, r3)
        let ver : List Char := match r' with
          | c :: rest =>
            if c = 'v' || c = 'V' then
              let ds := rest.takeWhile Char.isDigit
              if ds.isEmpty then [] else c :: ds
            else []
          | [] => []
        some (a ++ '.' :: b ++ ver)
    | _ => none

/-- The `\d{4}\.\d{4,5}` with no version group and no trailing boundary. -/
def matchIdBare (cs : List Char) : Option (List Char) :=
  match takeExactDigits 4 cs with
  | none => none
  | some (a, r1) =>
    match r1 with
    | '.' :: r2 =>
      match takeExactDigits 4 r2 with
      | none => none
      | some (b4, r3) =>
        let b := match r3 with
          | c :: _ => if c.isDigit then b4 ++ [c] else b4
          | [] => b4
        some (a ++ '.' :: b)
    | _ => none

/-- Scan for a case-insensitive literal followed by an ID grammar. -/
def searchLitThen (lit : List Char) (grammar : List Char → Option (List Char)) :
    List Char → Option (List Char)
  | [] => none
  | c :: rest =>
    match matchLitCI lit (c :: rest) with
    | some r =>
      match grammar r with
      | some g => some g
      | none => searchLitThen lit grammar rest
    | none => searchLitThen lit grammar rest

/-- The `re.search(r'v\d+$', s)`: a lowercase `v` followed by one or more digits
at the end of the string. -/
def hasVersionSuffix (s : String) : Bool :=
  let r := s.data.reverse
  let ds := r.takeWhile Char.isDigit
  match r.dropWhile Char.isDigit with
  | 'v' :: _ => !ds.isEmpty
  | _ => false

/-- The `extract_arxiv_id_from_content`: try both patterns over the first 3000
characters; append `v1` when the matched text lacks a version suffix. -/
def extract_arxiv_id_from_content (paper_content : String) : Option String :=
  let content_head := if paper_content.isEmpty then "" else paper_content.take 3000
  let finish := fun (g : List Char) =>
    let arxiv_id := String.mk g
    if hasVersionSuffix arxiv_id then arxiv_id else arxiv_id ++ "v1"
  match searchLitThen "arXiv:".data matchIdLoose content_head.data with
  | some g => some (finish g)
  | none =>
    match searchLitThen "arxiv.org/abs/".data matchIdBare content_head.data with
    | some g => some (finish g)
    | none => none

/-! ## Data model

Configuration dictionaries, checkpoint records (`serializable_state` written by
`save_checkpoint`), PDF metadata, and pipeline state (`PaperAnalysisState`
from `graph/state.py`).  Optional dictionary keys become `Option` fields; the
defaults mirror the `dict.get(key, default)` calls of the source. -/

/-- The `config['api']`: both keys may be absent in the current configuration. -/
structure ApiConfig where
  base_url : Option String := none
  timeout : Option Nat := none
deriving DecidableEq, Repr

/-- The `config['workflow']` (keys used by the checkpoint/resume core). -/
structure WorkflowConfig where
  num_questions : Option Nat := none
  max_followup_per_question : Option Nat := none
  final_integration_model : Option String := none
deriving DecidableEq, Repr

/-- The `config['checkpoint_management']` with the defaults read by
`cleanup_checkpoints` (checkpoint.py lines 728-739). -/
structure CleanupConfig where
  auto_cleanup : Bool := false
  max_checkpoint_size_mb : Option Nat := none
  max_checkpoint_files : Option Nat := none
  max_checkpoint_age_days : Option Nat := none
  keep_per_paper : Option Nat := none
  keep_completed : Bool := true
deriving DecidableEq, Repr

/-- The run configuration (`models` abstracts the model-configuration
dictionary, compared only for equality by the source). -/
structure Config where
  models : List (String × String) := []
  workflow : WorkflowConfig := {}
  api : ApiConfig := {}
  checkpoint_management : CleanupConfig := {}
deriving DecidableEq, Repr

/-- The `api` part of a `config_snapshot`: `save_checkpoint` always writes
both keys, defaulting `base_url` to `''` and `timeout` to `120`
(checkpoint.py lines 397-404). -/
structure ApiSnapshot where
  base_url : String
  timeout : Nat
deriving DecidableEq, Repr

/-- The `config_snapshot` as written by `save_checkpoint`. -/
structure ConfigSnapshot where
  models : List (String × String)
  workflow : WorkflowConfig
  api : ApiSnapshot
deriving DecidableEq, Repr

/-- Build the `config_snapshot` of a configuration (checkpoint.py 397-404). -/
def configSnapshotOf (c : Config) : ConfigSnapshot :=
  { models := c.models
    workflow := c.workflow
    api := { base_url := c.api.base_url.getD "", timeout := c.api.timeout.getD 120 } }

/-- A conversation message (`Message` in graph/state.py). -/
structure Message where
  role : String
  content : String
  round : Nat
  question_id : Nat
deriving DecidableEq, Repr

/-- A question/answer pair (`QAPair` in graph/state.py). -/
structure QAPair where
  question : String := ""
  analyzer_answer : String := ""
  verification_result : String := ""
  is_verified : Bool := false
  followup_needed : Bool := false
  followup_question : String := ""
deriving DecidableEq, Repr

/-- The `_get_pdf_metadata` result; `none` models the empty dictionary returned
when the file is missing or `stat` fails. -/
structure PdfMetadata where
  path : String
  size : Nat
  mtime : Nat
  hash : String
deriving DecidableEq, Repr

/-- A parsed checkpoint record: the `serializable_state` document written by
`save_checkpoint` (checkpoint.py lines 407-427).  Field defaults mirror the
`data.get(key, default)` reads used by the loaders. -/
structure Checkpoint where
  checkpoint_version : String := "2.0"
  saved_at : String := ""
  paper_identifier : String := ""
  pdf_metadata : Option PdfMetadata := none
  config_snapshot : ConfigSnapshot := configSnapshotOf {}
  paper_path : String := ""
  paper_structure : String := ""
  selected_questions : List String := []
  messages : List Message := []
  qa_pairs : List QAPair := []
  verification_results : List (List (String × String)) := []
  current_question_id : Nat := 0
  current_round : Nat := 0
  total_questions : Nat := 3
  final_report : String := ""
  start_time : Nat := 0
deriving DecidableEq, Repr

/-- The pipeline state dictionary passed to the checkpoint functions
(`PaperAnalysisState`, graph/state.py lines 27-61; unserializable fields
such as the LLM client are not part of it). -/
structure PState where
  paper_path : String := "unknown"
  paper_content : String := ""
  paper_structure : String := ""
  selected_questions : List String := []
  messages : List Message := []
  qa_pairs : List QAPair := []
  verification_results : List (List (String × String)) := []
  current_question_id : Nat := 0
  current_round : Nat := 0
  total_questions : Nat := 3
  final_report : String := ""
  config : Config := {}
  start_time : Nat := 0
deriving DecidableEq, Repr

/-! ## Filesystem model

The snapshot store root is a list of directory entries; `present = false`
models `os.path.exists(checkpoint_base_dir) = False`.  A `FileEntry`'s
`content` is the JSON parse result of the file: `none` models an unreadable
or corrupt file (every `open`/`json.load` of the source sits inside a
`try/except`). -/

structure FileEntry where
  name : String
  mtime : Nat := 0
  size : Nat := 0
  content : Option Checkpoint := none
deriving DecidableEq, Repr

structure DirEntry where
  name : String
  isDir : Bool := true
  files : List FileEntry := []
deriving DecidableEq, Repr

structure Store where
  present : Bool := true
  dirs : List DirEntry := []
deriving DecidableEq, Repr

/-- The filename filter used by every listing loop of the source:
`filename.startswith('checkpoint_') and filename.endswith('.json')`. -/
def isCheckpointJson (name : String) : Bool :=
  pyStartsWith name "checkpoint_" && pyEndsWith name ".json"

/-! ## Identifier resolution (checkpoint.py lines 82-170) -/

/-- Largest element of a nonempty integer list (`max` of Python). -/
def maxInt (x : Int) (xs : List Int) : Int := xs.foldl max x

/-- The `get_next_custom_id` (checkpoint.py lines 82-107): scan entries named
`custom_N`, parse `N` (`int(dirname.split('_')[1])`, parse failures skipped),
and return `custom_(max+1)`, or `custom_1` when the store is absent or holds
no parseable `custom_N` name. -/
def get_next_custom_id (store : Store) : String :=
  if !store.present then "custom_1"
  else
    let existing_nums := store.dirs.filterMap fun d =>
      if pyStartsWith d.name "custom_" then pyToInt ((pySplit d.name '_').getD 1 "") else none
    match existing_nums with
    | [] => "custom_1"
    | n :: ns => "custom_" ++ toString (maxInt n ns + 1)

/-- The first checkpoint JSON file of a directory listing (the inner loop of
`get_paper_identifier` examines only the first such file, then breaks). -/
def firstCheckpointFile (files : List FileEntry) : Option FileEntry :=
  files.find? fun f => pyEndsWith f.name ".json" && pyStartsWith f.name "checkpoint_"

/-- One directory's probe in strategy 3 of `get_paper_identifier`
(checkpoint.py lines 146-165): a `custom_*` directory is reused when its
first checkpoint file parses and records a `paper_path` resolving to the
current absolute path; a parse failure falls through. -/
def customDirHit (ap : String → String) (abs_paper_path : String) (d : DirEntry) :
    Option String :=
  if pyStartsWith d.name "custom_" && d.isDir then
    match firstCheckpointFile d.files with
    | some f =>
      match f.content with
      | some data => if ap data.paper_path = abs_paper_path then some d.name else none
      | none => none
    | none => none
  else none

/-- Strategy 3 of `get_paper_identifier` (checkpoint.py lines 143-165): scan
`custom_*` directories; reuse the first one whose first checkpoint file
records a `paper_path` resolving to the same absolute path. -/
def findExistingCustom (ap : String → String) (paper_path : String) (store : Store) :
    Option String :=
  if !store.present then none
  else store.dirs.findSome? (customDirHit ap (ap paper_path))

/-- The `get_paper_identifier` (checkpoint.py lines 110-170): filename extraction,
then content extraction, then fallback-directory reuse, then a fresh
`custom_N`.  Every fallible primitive is caught by the source, so the
resolver is total. -/
def get_paper_identifier (ap : String → String) (paper_path paper_content : String)
    (store : Store) : String :=
  match extract_arxiv_id_from_filename paper_path with
  | some arxiv_id => arxiv_id
  | none =>
    match (if !paper_content.isEmpty then extract_arxiv_id_from_content paper_content
           else none) with
    | some arxiv_id => arxiv_id
    | none =>
      match findExistingCustom ap paper_path store with
      | some dirname => dirname
      | none => get_next_custom_id store

/-! ## Stage labeling and snapshot writing (checkpoint.py lines 324-508) -/

/-- The `get_checkpoint_stage` (checkpoint.py lines 324-363): the pure stage label
derived from the state. -/
def get_checkpoint_stage (state : PState) : String :=
  let current_q := state.current_question_id
  let total_q := state.total_questions
  let has_structure := !state.paper_structure.isEmpty
  let has_questions := !state.selected_questions.isEmpty
  let has_final_report := !state.final_report.isEmpty
  if has_final_report then "final"
  else if !has_structure then "q0a0"
  else if !has_questions then "q0a1"
  else if current_q < total_q then
    let answer_count := (state.messages.filter fun msg =>
      msg.question_id == current_q && msg.role == "analyzer").length
    "q" ++ toString (current_q + 1) ++ "a" ++ toString answer_count
  else "q" ++ toString total_q ++ "a1"

/-- The snapshot filename written by `save_checkpoint` (line 390). -/
def checkpoint_filename (stage timestamp : String) : String :=
  "checkpoint_" ++ stage ++ "_" ++ timestamp ++ ".json"

/-- The `serializable_state` record written by `save_checkpoint`
(lines 407-427). -/
def serialize_state (saved_at identifier : String) (pdf_metadata : Option PdfMetadata)
    (s : PState) : Checkpoint :=
  { checkpoint_version := "2.0"
    saved_at := saved_at
    paper_identifier := identifier
    pdf_metadata := pdf_metadata
    config_snapshot := configSnapshotOf s.config
    paper_path := s.paper_path
    paper_structure := s.paper_structure
    selected_questions := s.selected_questions
    messages := s.messages
    qa_pairs := s.qa_pairs
    verification_results := s.verification_results
    current_question_id := s.current_question_id
    current_round := s.current_round
    total_questions := s.total_questions
    final_report := s.final_report
    start_time := s.start_time }

/-- Injected outcomes of the fallible filesystem primitives used by the save
path: `os.makedirs`, the snapshot/mirror `open(..., 'w')` write, and the
(internally caught) `_get_pdf_metadata` result. -/
structure SaveEffects where
  mkdirResult : Except String Unit := .ok ()
  writeResult : Except String Unit := .ok ()
  pdfMeta : Option PdfMetadata := none
deriving Repr

/-- The `get_checkpoint_dir_for_paper` (checkpoint.py lines 175-198): resolve the
identifier, then create the per-subject directory when absent (a failing
`os.makedirs` raises). -/
def get_checkpoint_dir_for_paper (ap : String → String) (base : String) (store : Store)
    (mkdirResult : Except String Unit) (paper_path paper_content : String) :
    Except String (String × String) :=
  let identifier := get_paper_identifier ap paper_path paper_content store
  let paper_checkpoint_dir := base ++ "/" ++ identifier
  if store.present && store.dirs.any (fun d => d.name == identifier) then
    .ok (paper_checkpoint_dir, identifier)
  else
    match mkdirResult with
    | .ok _ => .ok (paper_checkpoint_dir, identifier)
    | .error e => .error e

/-- The body of `save_checkpoint` (checkpoint.py lines 374-434), i.e. the code
inside its `try`: resolve the directory (raising on a failed `makedirs`),
compute the stage label and filename, build the record, and perform the write
(raising on failure).  Returns the written path and record. -/
def save_checkpoint_body (ap : String → String) (base : String) (store : Store)
    (eff : SaveEffects) (tsIso tsFile : String) (state : PState) :
    Except String (String × Checkpoint) :=
  match get_checkpoint_dir_for_paper ap base store eff.mkdirResult
      state.paper_path state.paper_content with
  | .error e => .error e
  | .ok (dir, identifier) =>
    let stage := get_checkpoint_stage state
    let checkpoint_file := dir ++ "/" ++ checkpoint_filename stage tsFile
    let record := serialize_state tsIso identifier eff.pdfMeta state
    match eff.writeResult with
    | .ok _ => .ok (checkpoint_file, record)
    | .error e => .error e

/-- The `save_checkpoint` (checkpoint.py lines 366-438): the body runs inside
`try/except Exception`, which logs and returns `None`; the caller therefore
never observes an exception. -/
def save_checkpoint (ap : String → String) (base : String) (store : Store)
    (eff : SaveEffects) (tsIso tsFile : String) (state : PState) :
    Except String (Option (String × Checkpoint)) :=
  match save_checkpoint_body ap base store eff tsIso tsFile state with
  | .ok r => .ok (some r)
  | .error _ => .ok none

/-- The Markdown document built by `save_readable_checkpoint`
(checkpoint.py lines 464-501); `nowStr` is the formatted `datetime.now()`. -/
def render_readable (nowStr : String) (state : PState) : String :=
  let header :=
    "# 论文分析检查点\n" ++
    "**论文**: " ++ state.paper_path ++ "\n" ++
    "**时间**: " ++ nowStr ++ "\n" ++
    "**当前轮次**: " ++ toString state.current_round ++ "\n" ++
    "**当前问题**: " ++ toString state.current_question_id ++ "/" ++
      toString state.total_questions ++ "\n" ++
    "\n---\n\n"
  let structurePart :=
    if !state.paper_structure.isEmpty then
      "## 📋 论文架构\n\n" ++ state.paper_structure ++ "\n\n---\n\n"
    else ""
  let questionsPart :=
    if !state.selected_questions.isEmpty then
      "## ❓ 选择的问题\n\n" ++
      String.join (state.selected_questions.enum.map fun p =>
        toString (p.1 + 1) ++ ". " ++ p.2 ++ "\n") ++
      "\n---\n\n"
    else ""
  let messagesPart :=
    if !state.messages.isEmpty then
      "## 💬 对话历史\n\n" ++
      String.join (state.messages.map fun msg =>
        let role_icon := if msg.role == "analyzer" then "🔍" else "✅"
        "### " ++ role_icon ++ " " ++ msg.role.toUpper ++ " - Round " ++
          toString msg.round ++ ", Q" ++ toString msg.question_id ++ "\n\n" ++
        msg.content ++ "\n\n" ++ "---\n\n")
    else ""
  header ++ structurePart ++ questionsPart ++ messagesPart

/-- The body of `save_readable_checkpoint` (checkpoint.py lines 449-504). -/
def save_readable_checkpoint_body (ap : String → String) (base : String) (store : Store)
    (eff : SaveEffects) (nowStr tsFile : String) (state : PState) :
    Except String (String × String) :=
  match get_checkpoint_dir_for_paper ap base store eff.mkdirResult
      state.paper_path state.paper_content with
  | .error e => .error e
  | .ok (dir, _identifier) =>
    let stage := get_checkpoint_stage state
    let readable_file := dir ++ "/" ++ ("readable_" ++ stage ++ "_" ++ tsFile ++ ".md")
    match eff.writeResult with
    | .ok _ => .ok (readable_file, render_readable nowStr state)
    | .error _ => .error "write failed"

/-- The `save_readable_checkpoint` (checkpoint.py lines 441-508): like `save`, the
whole body is wrapped in `try/except Exception` that logs and returns `None`,
so a failed mirror write is never propagated. -/
def save_readable_checkpoint (ap : String → String) (base : String) (store : Store)
    (eff : SaveEffects) (nowStr tsFile : String) (state : PState) :
    Except String (Option (String × String)) :=
  match save_readable_checkpoint_body ap base store eff nowStr tsFile state with
  | .ok r => .ok (some r)
  | .error _ => .ok none

/-! ## Locating and listing snapshots (checkpoint.py lines 511-640) -/

/-- Descending lexicographic insertion for `(mtime, filepath)` pairs:
`checkpoints.sort(reverse=True)` on Python tuples. -/
def insertTupleDesc (x : Nat × String) : List (Nat × String) → List (Nat × String)
  | [] => [x]
  | y :: ys =>
    if x.1 < y.1 || (x.1 == y.1 && pyStrLt x.2 y.2) then y :: insertTupleDesc x ys
    else x :: y :: ys

/-- Sort `(mtime, filepath)` pairs in descending lexicographic order. -/
def sortTupleDesc : List (Nat × String) → List (Nat × String)
  | [] => []
  | x :: xs => insertTupleDesc x (sortTupleDesc xs)

/-- The `find_latest_checkpoint` (checkpoint.py lines 511-549): resolve the
identifier with empty content, list the `checkpoint_*.json` files of the
subject directory, and return the path with the greatest `(mtime, path)`.
Returns `none` when the directory is missing or empty; a subject entry that
is not a directory makes `os.listdir` raise, which the outer handler turns
into `None`.  File contents are never read. -/
def find_latest_checkpoint (ap : String → String) (paper_path base : String)
    (store : Store) : Option String :=
  let identifier := get_paper_identifier ap paper_path "" store
  let paper_checkpoint_dir := base ++ "/" ++ identifier
  if !store.present then none
  else
    match store.dirs.find? (fun d => d.name == identifier) with
    | none => none
    | some d =>
      if !d.isDir then none
      else
        let checkpoints := (d.files.filter fun f => isCheckpointJson f.name).map
          fun f => (f.mtime, paper_checkpoint_dir ++ "/" ++ f.name)
        match sortTupleDesc checkpoints with
        | [] => none
        | latest :: _ => some latest.2

/-- The `load_checkpoint` (checkpoint.py lines 552-575): return the parse result,
`none` when the file is missing or corrupt. -/
def load_checkpoint (file : Option FileEntry) : Option Checkpoint :=
  match file with
  | none => none
  | some f => f.content

/-- One entry of the `list_checkpoints` result (checkpoint.py lines 617-629). -/
structure CheckpointSummary where
  file : String
  filename : String
  mtime : Nat
  size : Nat
  saved_at : String
  current_question : Nat
  total_questions : Nat
  progress_text : String
  has_structure : Bool
  num_messages : Nat
  is_completed : Bool
deriving DecidableEq, Repr

/-- Build one summary from a parsed checkpoint file (checkpoint.py 604-629);
`is_completed` is derived from a non-empty, stripped `final_report`. -/
def summaryOf (dirpath : String) (f : FileEntry) (data : Checkpoint) : CheckpointSummary :=
  let current_q := data.current_question_id
  let total_q := data.total_questions
  let has_final_report := !(pyStrip data.final_report).data.isEmpty
  let is_completed := has_final_report
  { file := dirpath ++ "/" ++ f.name
    filename := f.name
    mtime := f.mtime
    size := f.size
    saved_at := data.saved_at
    current_question := current_q
    total_questions := total_q
    progress_text :=
      if !is_completed then toString current_q ++ "/" ++ toString total_q ++ " 问题"
      else "已完成"
    has_structure := !data.paper_structure.isEmpty
    num_messages := data.messages.length
    is_completed := is_completed }

/-- Stable descending insertion by `mtime`
(`checkpoints.sort(key=mtime, reverse=True)`). -/
def insertSummaryDesc (x : CheckpointSummary) :
    List CheckpointSummary → List CheckpointSummary
  | [] => [x]
  | y :: ys => if x.mtime < y.mtime then y :: insertSummaryDesc x ys else x :: y :: ys

/-- Stable sort of summaries by decreasing `mtime`. -/
def sortSummariesDesc : List CheckpointSummary → List CheckpointSummary
  | [] => []
  | x :: xs => insertSummaryDesc x (sortSummariesDesc xs)

/-- The `list_checkpoints` (checkpoint.py lines 578-640): resolve the identifier,
summarize every parseable `checkpoint_*.json` file of the subject directory
(an unreadable or corrupt file is logged and skipped), and sort by descending
`mtime`.  All error exits return the empty list. -/
def list_checkpoints (ap : String → String) (paper_path base : String)
    (store : Store) : List CheckpointSummary :=
  let identifier := get_paper_identifier ap paper_path "" store
  let paper_checkpoint_dir := base ++ "/" ++ identifier
  if !store.present then []
  else
    match store.dirs.find? (fun d => d.name == identifier) with
    | none => []
    | some d =>
      if !d.isDir then []
      else
        sortSummariesDesc (d.files.filterMap fun f =>
          if isCheckpointJson f.name then
            f.content.map (summaryOf paper_checkpoint_dir f)
          else none)

/-! ## Consistency verification (checkpoint.py lines 643-709) -/

/-- Render an optional integer the way a Python f-string renders the result
of `dict.get('num_questions')`: `None` or the number. -/
def fmtOptNat : Option Nat → String
  | none => "None"
  | some n => toString n

/-- The `verify_checkpoint_consistency` (checkpoint.py lines 643-709).  The loaded
checkpoint (`none` when `load_checkpoint` failed) and the current PDF
metadata are passed explicitly.  Each check appends its difference entry
independently; the verdict is `differences == []`. -/
def verify_checkpoint_consistency (ap : String → String) (checkpoint : Option Checkpoint)
    (current_paper_path : String) (current_pdf_meta : Option PdfMetadata)
    (current_config : Config) : Bool × List String :=
  match checkpoint with
  | none => (false, ["无法加载检查点文件"])
  | some cp =>
    let d1 :=
      if ap cp.paper_path ≠ ap current_paper_path then
        ["论文路径不同: 检查点=" ++ cp.paper_path ++ ", 当前=" ++ current_paper_path]
      else []
    let d2 :=
      match cp.pdf_metadata, current_pdf_meta with
      | some sm, some cm =>
        (if sm.size ≠ cm.size then
          ["PDF文件大小不同: 检查点=" ++ toString sm.size ++ ", 当前=" ++ toString cm.size]
         else []) ++
        (if sm.hash ≠ "" ∧ cm.hash ≠ "" ∧ sm.hash ≠ cm.hash then
          ["PDF文件内容已修改 (哈希值不同)"]
         else [])
      | _, _ => []
    let saved := cp.config_snapshot
    let d3 := if saved.models ≠ current_config.models then ["模型配置已变化"] else []
    let d4 :=
      if saved.workflow.num_questions ≠ current_config.workflow.num_questions then
        ["问题数量配置已变化: " ++ fmtOptNat saved.workflow.num_questions ++ " → " ++
          fmtOptNat current_config.workflow.num_questions]
      else []
    let d5 :=
      if (some saved.api.base_url) ≠ current_config.api.base_url then
        ["API base_url 已变化"]
      else []
    let differences := d1 ++ d2 ++ d3 ++ d4 ++ d5
    (differences.isEmpty, differences)

/-! ## Retention manager (checkpoint.py lines 714-914)

Sizes are modelled in bytes with exact arithmetic.  The source converts to
megabytes with floating-point division by `1024*1024`; since that is division
by a power of two it is exact for all representable sizes, and for an integer
`max_size_mb` the comparisons below coincide with the source's.  Likewise the
age check compares seconds directly instead of the source's float
`age_days`. -/

/-- The per-file record collected by `cleanup_checkpoints`
(checkpoint.py lines 786-794). -/
structure CpInfo where
  path : String
  paper_dir : String
  filename : String
  mtime : Nat
  size : Nat
  is_completed : Bool
  age_seconds : Nat
deriving DecidableEq, Repr

/-- The completed-flag derivation used by the retention manager
(checkpoint.py lines 776-784): `current_question_id >= total_questions`,
`False` when the file cannot be parsed. -/
def cleanup_is_completed : Option Checkpoint → Bool
  | some data => data.current_question_id ≥ data.total_questions
  | none => false

/-- Collect every `checkpoint_*.json` file under every subject directory
(checkpoint.py lines 759-796). -/
def collect_checkpoints (now : Nat) (base : String) (store : Store) : List CpInfo :=
  (store.dirs.filter fun d => d.isDir).flatMap fun d =>
    (d.files.filter fun f => pyEndsWith f.name ".json" && pyStartsWith f.name "checkpoint_").map
      fun f =>
        { path := base ++ "/" ++ d.name ++ "/" ++ f.name
          paper_dir := d.name
          filename := f.name
          mtime := f.mtime
          size := f.size
          is_completed := cleanup_is_completed f.content
          age_seconds := now - f.mtime }

/-- Stable ascending insertion by `mtime`
(`all_checkpoints.sort(key=mtime)`, line 799). -/
def insertCpAsc (x : CpInfo) : List CpInfo → List CpInfo
  | [] => [x]
  | y :: ys => if y.mtime < x.mtime then y :: insertCpAsc x ys else x :: y :: ys

/-- Stable sort of checkpoint records by increasing `mtime`. -/
def sortCpAsc : List CpInfo → List CpInfo
  | [] => []
  | x :: xs => insertCpAsc x (sortCpAsc xs)

/-- Stable descending insertion by `mtime` for strategy 2's per-subject sort
(`cps.sort(key=mtime, reverse=True)`, line 826). -/
def insertCpDesc (x : CpInfo) : List CpInfo → List CpInfo
  | [] => [x]
  | y :: ys => if x.mtime < y.mtime then y :: insertCpDesc x ys else x :: y :: ys

/-- Stable sort of checkpoint records by decreasing `mtime`. -/
def sortCpDesc : List CpInfo → List CpInfo
  | [] => []
  | x :: xs => insertCpDesc x (sortCpDesc xs)

/-- Strategy 1, age policy (checkpoint.py lines 804-813): mark files older
than `max_age_days`, skipping completed ones when `keep_completed` is set.
The float comparison `age_days > max_age_days` equals this integral one. -/
def strategy1 (keep_completed : Bool) (max_age_days : Option Nat)
    (all : List CpInfo) : List CpInfo :=
  match max_age_days with
  | none => []
  | some maxd =>
    all.filter fun cp =>
      decide (cp.age_seconds > maxd * 86400) && !(keep_completed && cp.is_completed)

/-- First-occurrence key order of a Python `dict` built by insertion
(lines 817-822 group by `paper_dir`). -/
def dedupKeys (l : List String) : List String :=
  l.foldl (fun acc x => if x ∈ acc then acc else acc ++ [x]) []

/-- The inner loop of strategy 2 over one subject's newest-first snapshots
(checkpoint.py lines 829-840): the first `keepN` non-protected snapshots are
kept; later ones are marked unless protected as completed. -/
def strat2loop (keepN : Nat) (keep_completed : Bool) :
    Nat → List CpInfo → List CpInfo → List CpInfo
  | _, acc, [] => acc
  | kept, acc, cp :: rest =>
    if kept ≥ keepN then
      if keep_completed && cp.is_completed then strat2loop keepN keep_completed kept acc rest
      else if cp ∈ acc then strat2loop keepN keep_completed kept acc rest
      else strat2loop keepN keep_completed kept (acc ++ [cp]) rest
    else
      if !(keep_completed && cp.is_completed) then
        strat2loop keepN keep_completed (kept + 1) acc rest
      else strat2loop keepN keep_completed kept acc rest

/-- Strategy 2, per-subject policy (checkpoint.py lines 816-843). -/
def strategy2 (keep_completed : Bool) (keep_per_paper : Option Nat)
    (all : List CpInfo) (ftd : List CpInfo) : List CpInfo :=
  match keep_per_paper with
  | none => ftd
  | some keepN =>
    (dedupKeys (all.map fun cp => cp.paper_dir)).foldl
      (fun acc key =>
        strat2loop keepN keep_completed 0 acc
          (sortCpDesc (all.filter fun cp => cp.paper_dir == key)))
      ftd

/-- The marking loop of strategy 3 (checkpoint.py lines 848-856); `excess`
counts how many more files must be marked. -/
def strat3loop (keep_completed : Bool) :
    Nat → List CpInfo → List CpInfo → List CpInfo
  | _, acc, [] => acc
  | excess, acc, cp :: rest =>
    if excess = 0 then acc
    else if keep_completed && cp.is_completed then strat3loop keep_completed excess acc rest
    else if cp ∈ acc then strat3loop keep_completed excess acc rest
    else strat3loop keep_completed (excess - 1) (acc ++ [cp]) rest

/-- Strategy 3, global count policy (checkpoint.py lines 845-858). -/
def strategy3 (keep_completed : Bool) (max_files : Option Nat) (current_files : Nat)
    (all : List CpInfo) (ftd : List CpInfo) : List CpInfo :=
  match max_files with
  | none => ftd
  | some maxf =>
    if current_files > maxf then strat3loop keep_completed (current_files - maxf) ftd all
    else ftd

/-- The marking loop of strategy 4 (checkpoint.py lines 866-876); `freed`
accumulates the sizes already marked, stopping once `need` bytes are
covered. -/
def strat4loop (keep_completed : Bool) (need : Nat) :
    Nat → List CpInfo → List CpInfo → List CpInfo
  | _, acc, [] => acc
  | freed, acc, cp :: rest =>
    if freed ≥ need then acc
    else if keep_completed && cp.is_completed then
      strat4loop keep_completed need freed acc rest
    else if cp ∈ acc then strat4loop keep_completed need freed acc rest
    else strat4loop keep_completed need (freed + cp.size) (acc ++ [cp]) rest

/-- Strategy 4, global size policy (checkpoint.py lines 860-878); sizes in
bytes, the threshold in megabytes. -/
def strategy4 (keep_completed : Bool) (max_size_mb : Option Nat) (total_bytes : Nat)
    (all : List CpInfo) (ftd : List CpInfo) : List CpInfo :=
  match max_size_mb with
  | none => ftd
  | some maxmb =>
    if total_bytes > maxmb * 1048576 then
      let need_free_bytes := total_bytes - maxmb * 1048576
      strat4loop keep_completed need_free_bytes
        ((ftd.map fun cp => cp.size).sum) ftd all
    else ftd

/-- The `get_dir_size` over the store root (checkpoint.py lines 201-212): every
file of every directory counts, mirrors included. -/
def get_dir_size (store : Store) : Nat :=
  ((store.dirs.flatMap fun d => d.files).map fun f => f.size).sum

/-- The `total_files` of `get_checkpoint_stats` (lines 241-258): only
`checkpoint_*.json` files inside subject directories count. -/
def total_files (store : Store) : Nat :=
  ((store.dirs.filter fun d => d.isDir).flatMap fun d =>
    d.files.filter fun f => pyEndsWith f.name ".json" && pyStartsWith f.name "checkpoint_").length

/-- The deletion set accumulated by the four policies in source order
(checkpoint.py lines 801-878). -/
def cleanup_files_to_delete (cfg : CleanupConfig) (now : Nat) (base : String)
    (store : Store) : List CpInfo :=
  let all := sortCpAsc (collect_checkpoints now base store)
  let ftd := strategy1 cfg.keep_completed cfg.max_checkpoint_age_days all
  let ftd := strategy2 cfg.keep_completed cfg.keep_per_paper all ftd
  let ftd := strategy3 cfg.keep_completed cfg.max_checkpoint_files (total_files store) all ftd
  strategy4 cfg.keep_completed cfg.max_checkpoint_size_mb (get_dir_size store) all ftd

/-- Size of the file at a full `base/dir/file` path, if present. -/
def storeFileSize (base : String) (store : Store) (path : String) : Option Nat :=
  ((store.dirs.flatMap fun d =>
    d.files.map fun f => (base ++ "/" ++ d.name ++ "/" ++ f.name, f.size)).lookup path)

/-- The `cleanup_checkpoints` (checkpoint.py lines 714-914) under the model
assumption that every `os.remove` of an existing file succeeds: returns
`(deleted_files, freed_bytes, details)`.  For each deleted snapshot the
paired `readable_*.md` mirror (path obtained by the source's two
`str.replace` calls) is also removed and counted when present. -/
def cleanup_checkpoints (cfg : CleanupConfig) (now : Nat) (base : String)
    (store : Store) : Nat × Nat × List String :=
  if !cfg.auto_cleanup then (0, 0, [])
  else if !store.present then (0, 0, [])
  else
    let all := sortCpAsc (collect_checkpoints now base store)
    let current_files := total_files store
    let total_bytes := get_dir_size store
    let ftd1 := strategy1 cfg.keep_completed cfg.max_checkpoint_age_days all
    let details1 :=
      match cfg.max_checkpoint_age_days with
      | some maxd =>
        if !ftd1.isEmpty then
          ["Removed " ++ toString ftd1.length ++ " checkpoints older than " ++
            toString maxd ++ " days"]
        else []
      | none => []
    let ftd2 := strategy2 cfg.keep_completed cfg.keep_per_paper all ftd1
    let details2 :=
      match cfg.keep_per_paper with
      | some keepN =>
        if keepN ≠ 0 then ["Applied keep_per_paper=" ++ toString keepN ++ " policy"]
        else []
      | none => []
    let ftd3 := strategy3 cfg.keep_completed cfg.max_checkpoint_files current_files all ftd2
    let details3 :=
      match cfg.max_checkpoint_files with
      | some maxf =>
        if current_files > maxf then
          ["Reduced file count to max " ++ toString maxf]
        else []
      | none => []
    let ftd := strategy4 cfg.keep_completed cfg.max_checkpoint_size_mb total_bytes all ftd3
    let details4 :=
      match cfg.max_checkpoint_size_mb with
      | some maxmb =>
        if total_bytes > maxmb * 1048576 then
          ["Reduced total size to max " ++ toString maxmb ++ " MB"]
        else []
      | none => []
    let freed_bytes := ftd.foldl
      (fun acc cp =>
        let acc := acc + cp.size
        let readable_file := (pyReplace (pyReplace cp.path "checkpoint_" "readable_")
          ".json" ".md")
        match storeFileSize base store readable_file with
        | some sz => acc + sz
        | none => acc)
      0
    (ftd.length, freed_bytes, details1 ++ details2 ++ details3 ++ details4)

/-! ## The workflow graph and resume planner (graph/workflow.py)

`create_workflow` (lines 17-132) builds a `StateGraph` with entry point
`analyze_structure` and the fixed edges

    analyze_structure → select_questions → start_qa → answer_question →
    verify_answer → (next_question → answer_question | integrate_report → END)

The conditional edge `should_continue_qa` inspects the state after
`verify_answer`.  The semantic content of each stage (LLM calls and result
parsing in `agents/analyzer.py` and `agents/reviewer.py`) is out of the
checkpoint core's scope; an abstract `StageExecutor` supplies the stage
outputs, exactly as the spec abstracts them behind one executor interface.
The graph structure, the state updates performed by the graph's own nodes
(`after_select_questions`, `move_to_next_question`), and where each node
writes its output are taken from the source.  `messages` accumulates by
`operator.add` (graph/state.py line 42). -/

/-- The nodes added by `create_workflow` (workflow.py lines 66-70, 88, 114). -/
inductive Node where
  | analyze_structure
  | select_questions
  | start_qa
  | answer_question
  | verify_answer
  | next_question
  | integrate_report
deriving DecidableEq, Repr

/-- The graph-relevant part of `PaperAnalysisState` during a run. -/
structure WFState where
  paper_path : String := ""
  paper_structure : String := ""
  selected_questions : List String := []
  messages : List Message := []
  current_question_id : Nat := 0
  current_round : Nat := 0
  total_questions : Nat := 3
  final_report : String := ""
deriving DecidableEq, Repr

/-- The external stage executor: the outputs the LLM-backed agent functions
produce for each stage (already parsed, e.g. `select_questions_out` is the
result of `reviewer.parse_questions`). -/
structure StageExecutor where
  analyze_structure_out : String
  select_questions_raw : String
  select_questions_out : List String
  answer_out : Nat → String
  verify_out : Nat → String
  integrate_out : String

/-- Effect of one node on the state.  `analyze_structure` writes the structure
and appends an analyzer message with round 0 and question 0
(agents/analyzer.py lines 42-51); `select_questions` writes the parsed
questions and appends a reviewer message (reviewer.py lines 47-55);
`start_qa` sets the cursor to question 1, round 1 (workflow.py lines 81-86);
`answer_question`/`verify_answer` append a message for the current question
at the current round (analyzer.py 84-91, reviewer.py 93-104);
`next_question` advances the cursor (workflow.py lines 107-112);
`integrate_report` fills the final report (reviewer.py lines 151-154). -/
def runNode (ex : StageExecutor) (s : WFState) : Node → WFState
  | .analyze_structure =>
    { s with paper_structure := ex.analyze_structure_out
             messages := s.messages ++
               [{ role := "analyzer", content := ex.analyze_structure_out,
                  round := 0, question_id := 0 }] }
  | .select_questions =>
    { s with selected_questions := ex.select_questions_out
             messages := s.messages ++
               [{ role := "reviewer", content := ex.select_questions_raw,
                  round := 0, question_id := 0 }] }
  | .start_qa => { s with current_question_id := 1, current_round := 1 }
  | .answer_question =>
    { s with messages := s.messages ++
        [{ role := "analyzer", content := ex.answer_out s.current_question_id,
           round := s.current_round, question_id := s.current_question_id }] }
  | .verify_answer =>
    { s with messages := s.messages ++
        [{ role := "reviewer", content := ex.verify_out s.current_question_id,
           round := s.current_round, question_id := s.current_question_id }] }
  | .next_question =>
    { s with current_question_id := s.current_question_id + 1
             current_round := s.current_round + 1 }
  | .integrate_report => { s with final_report := ex.integrate_out }

/-- Successor node after executing `n`, evaluated on the updated state
(workflow.py lines 75-128); `none` is `END`. -/
def nextNode (s : WFState) : Node → Option Node
  | .analyze_structure => some .select_questions
  | .select_questions => some .start_qa
  | .start_qa => some .answer_question
  | .answer_question => some .verify_answer
  | .verify_answer =>
    if s.current_question_id < s.total_questions then some .next_question
    else some .integrate_report
  | .next_question => some .answer_question
  | .integrate_report => none

/-- Run the graph from node `n`, collecting the execution trace: for each
executed node, the node together with `current_question_id` at its entry.
`fuel` bounds the number of steps (every complete run terminates within the
fuel used below). -/
def runFrom (ex : StageExecutor) : Nat → WFState → Node → List (Node × Nat) × WFState
  | 0, s, _ => ([], s)
  | fuel + 1, s, n =>
    let s' := runNode ex s n
    match nextNode s' n with
    | none => ([(n, s.current_question_id)], s')
    | some n' =>
      let r := runFrom ex fuel s' n'
      ((n, s.current_question_id) :: r.1, r.2)

/-- The `app.stream(state)` / `app.invoke(state)` always begin at the graph's
entry point `analyze_structure` (workflow.py line 75): the trace of one
invocation. -/
def streamTrace (ex : StageExecutor) (fuel : Nat) (s : WFState) : List (Node × Nat) :=
  (runFrom ex fuel s .analyze_structure).1

/-- The resume state built by `resume_workflow` (workflow.py lines 232-250)
restricted to the graph-relevant fields. -/
def resumeStateOf (cp : Checkpoint) : WFState :=
  { paper_path := cp.paper_path
    paper_structure := cp.paper_structure
    selected_questions := cp.selected_questions
    messages := cp.messages
    current_question_id := cp.current_question_id
    current_round := cp.current_round
    total_questions := cp.total_questions
    final_report := cp.final_report }

/-- The `resume_workflow` (workflow.py lines 209-335) as the trace of stage
executions it triggers.  Branches (lines 269-318): no structure → full run
from the entry point; structure but no questions → full run; all questions
answered → only `integrate_report` (direct call, line 287); otherwise set the
cursor to `current_question_id + 1`, bump the round (lines 295-296), and run
`app.stream(resume_state)` — which starts at the entry point. -/
def resume_workflow_trace (ex : StageExecutor) (fuel : Nat) (cp : Checkpoint) :
    List (Node × Nat) :=
  let resume_state := resumeStateOf cp
  let current_q_id := cp.current_question_id
  let total_q := cp.total_questions
  let has_structure := !cp.paper_structure.isEmpty
  let has_questions := !cp.selected_questions.isEmpty
  if !has_structure then streamTrace ex fuel resume_state
  else if !has_questions then streamTrace ex fuel resume_state
  else if current_q_id ≥ total_q then
    [(.integrate_report, resume_state.current_question_id)]
  else
    let resume_state :=
      { resume_state with current_question_id := current_q_id + 1
                          current_round := resume_state.current_round + 1 }
    streamTrace ex fuel resume_state

/-! ## Concrete fixtures used by the theorems below -/

/-- Checkpoint with cursor at `AnsweringItem(2)` out of 3 items. -/
def cpPartial : Checkpoint :=
  { paper_structure := "S"
    selected_questions := ["q1", "q2", "q3"]
    messages := []
    current_question_id := 1
    current_round := 2
    total_questions := 3 }

/-- A configuration with no `api.base_url` entry. -/
def cfgNoApi : Config := { workflow := { num_questions := some 3 } }

/-- Fingerprint of an unchanged input file. -/
def pdfMetaFix : PdfMetadata := { path := "p.pdf", size := 10, mtime := 5, hash := "h" }

/-- The pipeline state of a run under `cfgNoApi`. -/
def stNoApi : PState := { paper_path := "p.pdf", config := cfgNoApi }

/-- A configuration that does record an API base URL. -/
def cfgWithApi : Config :=
  { workflow := { num_questions := some 3 }, api := { base_url := some "http://x" } }

/-- A checkpoint saved under `cfgWithApi` for subject `a.pdf`. -/
def cpTwoDiff : Checkpoint :=
  { config_snapshot := configSnapshotOf cfgWithApi, paper_path := "a.pdf" }

/-- A partially processed state (stage label `q2a0`). -/
def stateA : PState :=
  { paper_path := "mypaper.pdf"
    paper_structure := "A"
    selected_questions := ["a", "b", "c"]
    current_question_id := 1
    total_questions := 3 }

/-- A different state with the same stage label. -/
def stateB : PState := { stateA with paper_structure := "B" }

/-- A snapshot mid-run: one of three questions answered. -/
def cpUnfinished : Checkpoint := { current_question_id := 1, total_questions := 3 }

/-- A snapshot past all items (the retention manager's completed criterion,
`current_question_id >= total_questions`). -/
def cpAllAnswered : Checkpoint := { current_question_id := 3, total_questions := 3 }

/-- A 1 MB snapshot file with modification time `i`. -/
def snapFile (i : Nat) (c : Checkpoint) : FileEntry :=
  { name := "checkpoint_q2a0_t" ++ toString i ++ ".json"
    mtime := i
    size := 1048576
    content := some c }

/-- Ten 1 MB snapshots, none completed, oldest first. -/
def storeTen : Store :=
  { dirs := [{ name := "2510.00001v1"
               files := (List.range 10).map fun i => snapFile (i + 1) cpUnfinished }] }

/-- Ten 1 MB snapshots whose two oldest are completed. -/
def storeTenTwoCompleted : Store :=
  { dirs := [{ name := "2510.00001v1"
               files := ((List.range 2).map fun i => snapFile (i + 1) cpAllAnswered) ++
                 ((List.range 8).map fun i => snapFile (i + 3) cpUnfinished) }] }

/-- The `maxSizeMB = 5` with completed-snapshot protection disabled. -/
def cfgSize5 : CleanupConfig :=
  { auto_cleanup := true, max_checkpoint_size_mb := some 5, keep_completed := false }

/-- The `maxSizeMB = 5` with completed-snapshot protection enabled. -/
def cfgSize5Protect : CleanupConfig :=
  { auto_cleanup := true, max_checkpoint_size_mb := some 5, keep_completed := true }

/-- The `maxSizeMB = 1`: a cap the eight unprotected snapshots alone cannot
meet. -/
def cfgSize1Protect : CleanupConfig :=
  { auto_cleanup := true, max_checkpoint_size_mb := some 1, keep_completed := true }

/-- A snapshot past all items but with no final report yet (stage
`q3a1`, awaiting integration). -/
def cpPastItemsNoReport : Checkpoint :=
  { current_question_id := 3, total_questions := 3, final_report := "" }

/-- The on-disk file holding `cpPastItemsNoReport`. -/
def filePastItems : FileEntry :=
  { name := "checkpoint_q3a1_t7.json", mtime := 7, size := 10
    content := some cpPastItemsNoReport }

/-- A store holding only `filePastItems` for subject `2510.19555v1`. -/
def storePastItems : Store :=
  { dirs := [{ name := "2510.19555v1", files := [filePastItems] }] }

/-- A parseable snapshot file. -/
def fGoodFile : FileEntry :=
  { name := "checkpoint_q1a0_a.json", mtime := 2, size := 5, content := some cpUnfinished }

/-- A corrupt snapshot file (unreadable or invalid JSON). -/
def fCorruptFile : FileEntry :=
  { name := "checkpoint_q1a0_b.json", mtime := 5, size := 6, content := none }

/-- A human-readable mirror file sitting beside the snapshots. -/
def fMirrorFile : FileEntry :=
  { name := "readable_q1a0_a.md", mtime := 2, size := 7, content := none }

/-- The directory entry mixing a good snapshot, a corrupt one, and a mirror. -/
def dirMixed : DirEntry :=
  { name := "2510.19555v1", files := [fGoodFile, fCorruptFile, fMirrorFile] }

/-- A store holding `dirMixed`. -/
def storeMixed : Store := { dirs := [dirMixed] }

/-- A subject directory all of whose snapshots are corrupt. -/
def storeAllCorrupt : Store :=
  { dirs := [{ name := "2510.19555v1"
               files := [{ name := "checkpoint_q1a0_a.json", mtime := 5, size := 6,
                           content := none },
                         { name := "checkpoint_q1a0_b.json", mtime := 9, size := 6,
                           content := none }] }] }

/-- A store whose subject entry is a plain file, not a directory
(`os.listdir` raises there; the outer handlers return `[]` / `None`). -/
def dirNotADir : DirEntry := { name := "2510.19555v1", isDir := false, files := [] }

/-- A store whose subject entry is `dirNotADir`. -/
def storeNotADir : Store := { dirs := [dirNotADir] }

/-- Keep only the structured snapshot files of one directory. -/
def restrictDir (d : DirEntry) : DirEntry :=
  { d with files := d.files.filter fun f => isCheckpointJson f.name }

/-- Keep only the structured snapshot files of the whole store. -/
def restrictStore (s : Store) : Store := { s with dirs := s.dirs.map restrictDir }

/-! ## Helper lemmas -/

/-- The `find?` of a predicate on the sublist filtered by the same predicate. -/
theorem find?_filter_self {α : Type _} (p : α → Bool) :
    ∀ l : List α, (l.filter p).find? p = l.find? p := by
  intro l
  induction l with
  | nil => rfl
  | cons a l ih =>
    by_cases h : p a
    · simp [List.filter_cons, List.find?_cons, h]
    · simp [List.filter_cons, List.find?_cons, h, ih]

/-- Filtering twice by the same predicate filters once. -/
theorem filter_idem {α : Type _} (p : α → Bool) :
    ∀ l : List α, (l.filter p).filter p = l.filter p := by
  intro l
  induction l with
  | nil => rfl
  | cons a l ih =>
    by_cases h : p a
    · simp [List.filter_cons, h, ih]
    · simp [List.filter_cons, h, ih]

/-- Membership is preserved by the descending summary insertion. -/
theorem mem_insertSummaryDesc (x y : CheckpointSummary) :
    ∀ l, x ∈ insertSummaryDesc y l ↔ x = y ∨ x ∈ l := by
  intro l
  induction l with
  | nil => simp [insertSummaryDesc]
  | cons a l ih =>
    by_cases h : y.mtime < a.mtime
    · simp only [insertSummaryDesc, if_pos h, List.mem_cons, ih]
      tauto
    · simp only [insertSummaryDesc, if_neg h, List.mem_cons]

/-- Membership is preserved by the descending summary sort. -/
theorem mem_sortSummariesDesc (x : CheckpointSummary) :
    ∀ l, x ∈ sortSummariesDesc l ↔ x ∈ l := by
  intro l
  induction l with
  | nil => simp [sortSummariesDesc]
  | cons a l ih => simp [sortSummariesDesc, mem_insertSummaryDesc, ih]

/-- Descending summary insertion adds one element to the length. -/
theorem length_insertSummaryDesc (y : CheckpointSummary) :
    ∀ l, (insertSummaryDesc y l).length = l.length + 1 := by
  intro l
  induction l with
  | nil => rfl
  | cons a l ih =>
    by_cases h : y.mtime < a.mtime
    · simp [insertSummaryDesc, if_pos h, ih]
    · simp [insertSummaryDesc, if_neg h]

/-- The descending summary sort preserves length. -/
theorem length_sortSummariesDesc :
    ∀ l, (sortSummariesDesc l).length = l.length := by
  intro l
  induction l with
  | nil => rfl
  | cons a l ih => simp [sortSummariesDesc, length_insertSummaryDesc, ih]

/-- Counting the files that a `filterMap`-based summary listing keeps:
exactly the checkpoint-JSON files whose parse succeeded. -/
theorem length_summary_filterMap (dirpath : String) :
    ∀ files : List FileEntry,
      (files.filterMap fun f =>
        if isCheckpointJson f.name then f.content.map (summaryOf dirpath f)
        else none).length =
      (files.filter fun f => isCheckpointJson f.name && f.content.isSome).length := by
  intro files
  induction files with
  | nil => rfl
  | cons f files ih =>
    by_cases h : isCheckpointJson f.name
    · cases hc : f.content with
      | none => simp [List.filterMap_cons, List.filter_cons, h, hc, ih]
      | some data => simp [List.filterMap_cons, List.filter_cons, h, hc, ih]
    · simp [List.filterMap_cons, List.filter_cons, h, ih]

/-! ## C1 — Resume correctness

Fixture: a snapshot whose cursor is at `AnsweringItem(2)` — item 1 was the
last fully verified item out of 3 (`current_question_id = 1`,
`total_questions = 3`), with structure and questions recorded. -/

/-- C1: Claimed: for a saved PipelineState with cursor at `AnsweringItem(2)`
out of 3 items and a consistent fresh input, `resume_workflow`'s first
stage-executor action executes item 2's answering stage — not item 1, not
item 3, and no earlier stage.  The code violates this: for every stage
executor, the first executed node of the resumed run is `analyze_structure`
(the graph's entry point), and the first `answer_question` execution handles
item 1 — the `start_qa` node resets `current_question_id` to 1 even though
`resume_workflow` had set it to 2.  This contradicts the source's own log
message `"Resuming from question {current_q_id + 1}/{total_q}"` and its
comment that the workflow will choose nodes according to
`current_question_id` (workflow.py lines 292-300), so it is recorded as a
code bug rather than a spec error. -/
theorem resume_first_action_is_structure_analysis_not_item2 (ex : StageExecutor) :
    (resume_workflow_trace ex 30 cpPartial).head? = some (.analyze_structure, 2) ∧
    ((resume_workflow_trace ex 30 cpPartial).find? fun e => e.1 == .answer_question) =
      some (.answer_question, 1) := by
  constructor <;> rfl

/-! ## C3 — Storage errors and `save_checkpoint` -/

/-- C3 counterexample: Claimed: a failed snapshot write makes
`save_checkpoint` propagate the failure to its caller.  In fact the whole
body of `save_checkpoint` runs inside `try/except Exception`, which logs and
returns `None` (checkpoint.py lines 436-438): with a failing write the call
returns normally with `None`. -/
theorem save_checkpoint_swallows_write_failure :
    save_checkpoint id "checkpoints" {} { writeResult := .error "disk full" }
      "2025-01-01T12:00:00" "20250101_120000" { paper_path := "mypaper.pdf" } =
    .ok none := rfl

/-- C3 amended: for every state, a failure while creating the subject
directory or writing the snapshot file is caught by `save_checkpoint`'s
`except Exception` handler: the function never raises, and any injected
write failure yields the `None` return value (the caller can proceed with
in-memory state). -/
theorem save_checkpoint_never_raises :
    (∀ (ap : String → String) (base : String) (store : Store) (eff : SaveEffects)
      (tsIso tsFile : String) (state : PState),
      ∃ r, save_checkpoint ap base store eff tsIso tsFile state = .ok r) ∧
    (∀ (ap : String → String) (base : String) (store : Store)
      (mk : Except String Unit) (meta : Option PdfMetadata) (e : String)
      (tsIso tsFile : String) (state : PState),
      save_checkpoint ap base store
        { mkdirResult := mk, writeResult := .error e, pdfMeta := meta }
        tsIso tsFile state = .ok none) := by
  constructor
  · intro ap base store eff tsIso tsFile state
    unfold save_checkpoint
    cases save_checkpoint_body ap base store eff tsIso tsFile state with
    | ok r => exact ⟨some r, rfl⟩
    | error e => exact ⟨none, rfl⟩
  · intro ap base store mk meta e tsIso tsFile state
    unfold save_checkpoint save_checkpoint_body
    cases get_checkpoint_dir_for_paper ap base store mk state.paper_path
      state.paper_content <;> rfl

/-! ## C7 — Identifier resolution totality and empty-store fallback

The resolver is total by construction in this embedding: every fallible
read of the source sits inside a `try/except` modelled by `Option`, and a
failed pattern match falls through to the next strategy
(`get_paper_identifier`'s cascade of `match ... | none =>`). -/

/-- C7: when no canonical ID can be extracted from filename or content and
the store is completely empty (or absent), the resolver returns the
fallback identity with counter 1 — named `custom_1` in the source, the
identity the spec calls `fallback_1`. -/
theorem resolver_empty_store_yields_first_fallback
    (ap : String → String) (p c : String) (present : Bool)
    (h1 : extract_arxiv_id_from_filename p = none)
    (h2 : extract_arxiv_id_from_content c = none) :
    get_paper_identifier ap p c { present := present, dirs := [] } = "custom_1" := by
  unfold get_paper_identifier
  rw [h1]
  have hcontent : (if !c.isEmpty then extract_arxiv_id_from_content c else none) = none := by
    by_cases hc : c.isEmpty <;> simp [hc, h2]
  rw [hcontent]
  have hfind : findExistingCustom ap p { present := present, dirs := [] } = none := by
    unfold findExistingCustom
    cases present <;> simp
  rw [hfind]
  unfold get_next_custom_id
  cases present <;> simp [maxInt]

/-- C7 witness: for the concrete subject `paper.pdf` with no content, both
the absent store and the present-but-empty store resolve to `custom_1`. -/
theorem resolver_empty_store_yields_first_fallback_witness :
    get_paper_identifier id "paper.pdf" "" { present := false, dirs := [] } = "custom_1" ∧
    get_paper_identifier id "paper.pdf" "" { present := true, dirs := [] } = "custom_1" :=
  ⟨resolver_empty_store_yields_first_fallback id "paper.pdf" "" false (by rfl) (by rfl),
   resolver_empty_store_yields_first_fallback id "paper.pdf" "" true (by rfl) (by rfl)⟩

/-! ## C9 — Filename ID extraction with version defaulting -/

/-- C9: whenever the filename contains the canonical arXiv-ID pattern
(`arxivSearch` finds a match with main group `id` and optional version group
`v`), the extractor returns `id` with its version, defaulting the missing
version suffix to `v1`. -/
theorem extract_filename_appends_default_version
    (p arxivId : String) (v : Option String)
    (h : arxivSearch (basename p) = some (arxivId, v)) :
    extract_arxiv_id_from_filename p = some (arxivId ++ v.getD "v1") := by
  simp only [extract_arxiv_id_from_filename]
  rw [h]
  cases v <;> simp

/-- C9 witness: `"2510.19555v1.pdf"` resolves to `"2510.19555v1"`, and the
bare-ID filename `"2510.19555.pdf"` also resolves to `"2510.19555v1"`. -/
theorem extract_filename_appends_default_version_witness :
    extract_arxiv_id_from_filename "2510.19555v1.pdf" = some "2510.19555v1" ∧
    extract_arxiv_id_from_filename "2510.19555.pdf" = some "2510.19555v1" :=
  ⟨extract_filename_appends_default_version "2510.19555v1.pdf" "2510.19555"
      (some "v1") (by rfl),
   extract_filename_appends_default_version "2510.19555.pdf" "2510.19555" none (by rfl)⟩

/-! ## C2 — Consistency verification -/

/-- C2 counterexample: the claim says an unchanged input and config yields
verdict `true` with an empty difference list for every current config.  Not
so: when the configuration has no `api.base_url`, the snapshot records the
empty-string default (checkpoint.py line 401) while the verifier reads the
current value as Python `None` (line 701), so saving and immediately
re-verifying the very same input and configuration yields verdict `false`
with an `API base_url` difference entry. -/
theorem verify_rejects_unchanged_run_without_base_url :
    verify_checkpoint_consistency id
      (some (serialize_state "2025-01-01T00:00:00" "custom_1" (some pdfMetaFix) stNoApi))
      "p.pdf" (some pdfMetaFix) cfgNoApi =
    (false, ["API base_url 已变化"]) := rfl

/-- C2 amended: the verdict is `true` exactly when the difference list is
empty (on every return path); the checks do not short-circuit — a single
report can carry several difference entries; changing only the configured
number of questions yields verdict `false` with a difference entry naming
that field; and an unchanged input and config yields verdict `true` with an
empty difference list *provided* the configuration records an API base URL
(without one, the empty-string snapshot default never equals the absent
current value). -/
theorem verify_checkpoint_consistency_spec :
    (∀ (ap : String → String) (cp : Option Checkpoint) (p : String)
       (m : Option PdfMetadata) (c : Config),
       (verify_checkpoint_consistency ap cp p m c).1 = true ↔
       (verify_checkpoint_consistency ap cp p m c).2 = []) ∧
    ((verify_checkpoint_consistency id (some cpTwoDiff) "b.pdf" none
        { cfgWithApi with models := [("model", "x")] }).2.length = 2) ∧
    (∀ (ap : String → String) (cp : Checkpoint) (c : Config) (n' : Option Nat),
       cp.config_snapshot = configSnapshotOf c →
       n' ≠ c.workflow.num_questions →
       (verify_checkpoint_consistency ap (some cp) cp.paper_path cp.pdf_metadata
         { c with workflow := { c.workflow with num_questions := n' } }).1 = false ∧
       ("问题数量配置已变化: " ++ fmtOptNat c.workflow.num_questions ++ " → " ++
         fmtOptNat n') ∈
         (verify_checkpoint_consistency ap (some cp) cp.paper_path cp.pdf_metadata
           { c with workflow := { c.workflow with num_questions := n' } }).2) ∧
    (∀ (ap : String → String) (cp : Checkpoint) (c : Config) (u : String),
       cp.config_snapshot = configSnapshotOf c →
       c.api.base_url = some u →
       verify_checkpoint_consistency ap (some cp) cp.paper_path cp.pdf_metadata c =
         (true, [])) := by
  refine ⟨?_, by rfl, ?_, ?_⟩
  · intro ap cp p m c
    cases cp with
    | none => simp [verify_checkpoint_consistency]
    | some cp => simp [verify_checkpoint_consistency, List.isEmpty_iff]
  · intro ap cp c n' hsnap hne
    have hne' : c.workflow.num_questions ≠ n' := Ne.symm hne
    cases hb : c.api.base_url with
    | none =>
      cases hm : cp.pdf_metadata with
      | none => simp [verify_checkpoint_consistency, hsnap, hm, hb, configSnapshotOf, hne']
      | some sm => simp [verify_checkpoint_consistency, hsnap, hm, hb, configSnapshotOf, hne']
    | some u =>
      cases hm : cp.pdf_metadata with
      | none => simp [verify_checkpoint_consistency, hsnap, hm, hb, configSnapshotOf, hne']
      | some sm => simp [verify_checkpoint_consistency, hsnap, hm, hb, configSnapshotOf, hne']
  · intro ap cp c u hsnap hb
    cases hm : cp.pdf_metadata with
    | none => simp [verify_checkpoint_consistency, hsnap, hm, hb, configSnapshotOf]
    | some sm => simp [verify_checkpoint_consistency, hsnap, hm, hb, configSnapshotOf]

/-- C2 witness: the amended theorem applied at `cfgWithApi` — changing the
question count 3 → 5 gives verdict false and names the field; re-verifying
the unchanged run gives verdict true with no differences. -/
theorem verify_checkpoint_consistency_spec_witness :
    ((verify_checkpoint_consistency id
        (some { config_snapshot := configSnapshotOf cfgWithApi, paper_path := "a.pdf" })
        "a.pdf" none
        { cfgWithApi with
            workflow := { cfgWithApi.workflow with num_questions := some 5 } }).1 = false ∧
      ("问题数量配置已变化: " ++ fmtOptNat cfgWithApi.workflow.num_questions ++ " → " ++
        fmtOptNat (some 5)) ∈
        (verify_checkpoint_consistency id
          (some { config_snapshot := configSnapshotOf cfgWithApi, paper_path := "a.pdf" })
          "a.pdf" none
          { cfgWithApi with
              workflow := { cfgWithApi.workflow with num_questions := some 5 } }).2) ∧
    verify_checkpoint_consistency id
      (some { config_snapshot := configSnapshotOf cfgWithApi, paper_path := "a.pdf" })
      "a.pdf" none cfgWithApi = (true, []) :=
  ⟨verify_checkpoint_consistency_spec.2.2.1 id
      { config_snapshot := configSnapshotOf cfgWithApi, paper_path := "a.pdf" }
      cfgWithApi (some 5) rfl (by decide),
   verify_checkpoint_consistency_spec.2.2.2 id
      { config_snapshot := configSnapshotOf cfgWithApi, paper_path := "a.pdf" }
      cfgWithApi "http://x" rfl rfl⟩

/-! ## C4 — Snapshots are write-once -/

/-- C4 counterexample: the claim says any two distinct saves for the same
subject produce distinct snapshot file paths, so no save overwrites an
existing snapshot.  The filename embeds only the stage label and a
second-granularity timestamp (checkpoint.py lines 388-390): two saves of
distinct states with the same stage within the same second produce the same
path, and since the file is opened with mode `'w'` (line 430) the second
save overwrites the first snapshot with different content. -/
theorem save_same_second_same_stage_collides :
    stateA ≠ stateB ∧
    save_checkpoint id "checkpoints" {} {} "iso" "20250101_120000" stateA =
      .ok (some ("checkpoints/custom_1/checkpoint_q2a0_20250101_120000.json",
        serialize_state "iso" "custom_1" none stateA)) ∧
    save_checkpoint id "checkpoints" {} {} "iso" "20250101_120000" stateB =
      .ok (some ("checkpoints/custom_1/checkpoint_q2a0_20250101_120000.json",
        serialize_state "iso" "custom_1" none stateB)) ∧
    serialize_state "iso" "custom_1" none stateA ≠
      serialize_state "iso" "custom_1" none stateB :=
  ⟨by decide, rfl, rfl, by decide⟩

/-- The `(s ++ t).data = s.data ++ t.data`, definitional. -/
theorem string_data_append (a b : String) : (a ++ b).data = a.data ++ b.data := rfl

/-- C4 amended: two saves whose (equal-length, e.g. both produced by
`strftime('%Y%m%d_%H%M%S')`) timestamps differ are written to distinct
snapshot paths — the collision of the counterexample requires the same stage
label in the same second; across distinct timestamps snapshots are
write-once. -/
theorem distinct_timestamps_give_distinct_snapshot_paths
    (dir : String) (s1 s2 : PState) (ts1 ts2 : String)
    (hlen : ts1.length = ts2.length) (hne : ts1 ≠ ts2) :
    dir ++ "/" ++ checkpoint_filename (get_checkpoint_stage s1) ts1 ≠
    dir ++ "/" ++ checkpoint_filename (get_checkpoint_stage s2) ts2 := by
  intro h
  apply hne
  have hdata := congrArg String.data h
  have e1 : (dir ++ "/" ++ checkpoint_filename (get_checkpoint_stage s1) ts1).data =
      (dir.data ++ (("/" : String).data ++ (("checkpoint_" : String).data ++
        ((get_checkpoint_stage s1).data ++ ("_" : String).data)))) ++
        (ts1.data ++ (".json" : String).data) := by
    simp [checkpoint_filename, string_data_append, List.append_assoc]
  have e2 : (dir ++ "/" ++ checkpoint_filename (get_checkpoint_stage s2) ts2).data =
      (dir.data ++ (("/" : String).data ++ (("checkpoint_" : String).data ++
        ((get_checkpoint_stage s2).data ++ ("_" : String).data)))) ++
        (ts2.data ++ (".json" : String).data) := by
    simp [checkpoint_filename, string_data_append, List.append_assoc]
  rw [e1, e2] at hdata
  have hdlen : ts1.data.length = ts2.data.length := hlen
  have hl : (ts1.data ++ (".json" : String).data).length =
      (ts2.data ++ (".json" : String).data).length := by
    simp [hdlen]
  have h2 := (List.append_inj' hdata hl).2
  have h3 := (List.append_inj' h2 rfl).1
  cases ts1 with
  | mk l1 =>
    cases ts2 with
    | mk l2 => exact congrArg String.mk h3

/-- C4 amended witness: two concrete saves one second apart land on distinct
paths. -/
theorem distinct_timestamps_give_distinct_snapshot_paths_witness :
    ("20250101_120000" : String).length = ("20250101_120001" : String).length ∧
    "checkpoints/custom_1" ++ "/" ++
        checkpoint_filename (get_checkpoint_stage stateA) "20250101_120000" ≠
      "checkpoints/custom_1" ++ "/" ++
        checkpoint_filename (get_checkpoint_stage stateB) "20250101_120001" :=
  ⟨rfl, distinct_timestamps_give_distinct_snapshot_paths "checkpoints/custom_1"
    stateA stateB "20250101_120000" "20250101_120001" rfl (by decide)⟩

/-! ## C5 — Retention bounds -/

/-- C5: with ten 1 MB snapshots and `maxSizeMB=5`, `protectCompleted=false`,
cleanup deletes exactly the five oldest snapshots and the remaining total
size is exactly 5 MB; with the two oldest completed and protection enabled,
the deletion set consists of non-completed snapshots only (the five oldest
unprotected ones for the 5 MB cap), and even under a 1 MB cap that cannot be
met by the eight unprotected snapshots, all eight are deleted but the two
completed ones never are. -/
theorem cleanup_retention_bounds :
    ((cleanup_files_to_delete cfgSize5 100 "checkpoints" storeTen).map
        (fun cp => cp.filename) =
      ["checkpoint_q2a0_t1.json", "checkpoint_q2a0_t2.json", "checkpoint_q2a0_t3.json",
       "checkpoint_q2a0_t4.json", "checkpoint_q2a0_t5.json"]) ∧
    ((cleanup_checkpoints cfgSize5 100 "checkpoints" storeTen).1 = 5) ∧
    (get_dir_size storeTen - (cleanup_checkpoints cfgSize5 100 "checkpoints" storeTen).2.1 =
      5 * 1048576) ∧
    ((cleanup_files_to_delete cfgSize5Protect 100 "checkpoints" storeTenTwoCompleted).map
        (fun cp => cp.filename) =
      ["checkpoint_q2a0_t3.json", "checkpoint_q2a0_t4.json", "checkpoint_q2a0_t5.json",
       "checkpoint_q2a0_t6.json", "checkpoint_q2a0_t7.json"]) ∧
    ((cleanup_files_to_delete cfgSize5Protect 100 "checkpoints" storeTenTwoCompleted).all
        (fun cp => !cp.is_completed) = true) ∧
    ((cleanup_files_to_delete cfgSize1Protect 100 "checkpoints" storeTenTwoCompleted).map
        (fun cp => cp.filename) =
      ["checkpoint_q2a0_t3.json", "checkpoint_q2a0_t4.json", "checkpoint_q2a0_t5.json",
       "checkpoint_q2a0_t6.json", "checkpoint_q2a0_t7.json", "checkpoint_q2a0_t8.json",
       "checkpoint_q2a0_t9.json", "checkpoint_q2a0_t10.json"]) ∧
    ((cleanup_files_to_delete cfgSize1Protect 100 "checkpoints" storeTenTwoCompleted).all
        (fun cp => !cp.is_completed) = true) :=
  ⟨rfl, rfl, rfl, rfl, rfl, rfl, rfl⟩

/-! ## C6 — The completed-snapshot criterion -/

/-- C6 counterexample: the claim says the `is_completed` criterion
(non-empty final report) is the same one the retention manager's
protect-completed rule uses.  It is not: `list_checkpoints` derives
`is_completed` from a non-empty stripped `final_report` (checkpoint.py
lines 612-615), while `cleanup_checkpoints` derives it from
`current_question_id >= total_questions` (lines 776-784).  On a snapshot
past all items with an empty final report the two criteria disagree. -/
theorem completed_criteria_diverge :
    (list_checkpoints id "2510.19555v1.pdf" "checkpoints" storePastItems).map
      (fun s => s.is_completed) = [false] ∧
    (collect_checkpoints 100 "checkpoints" storePastItems).map
      (fun cp => cp.is_completed) = [true] :=
  ⟨rfl, rfl⟩

/-- C6 amended: every summary produced by `list_checkpoints` carries
`is_completed` true exactly when its file's parsed record has a non-empty
(stripped) final report; the retention manager instead derives its
protected-completed flag as `cleanup_is_completed`, i.e.
`current_question_id ≥ total_questions` — a different criterion that also
covers snapshots past all items that lack a final report. -/
theorem list_completed_iff_final_report :
    (∀ (ap : String → String) (p base : String) (store : Store)
       (s : CheckpointSummary), s ∈ list_checkpoints ap p base store →
       ∃ d ∈ store.dirs, ∃ f ∈ d.files, ∃ data,
         f.content = some data ∧
         s.is_completed = !(pyStrip data.final_report).data.isEmpty) ∧
    (∀ (now : Nat) (base : String) (store : Store) (cp : CpInfo),
       cp ∈ collect_checkpoints now base store →
       ∃ d ∈ store.dirs, ∃ f ∈ d.files,
         cp.is_completed = cleanup_is_completed f.content) ∧
    (∀ data : Checkpoint, cleanup_is_completed (some data) =
       decide (data.current_question_id ≥ data.total_questions)) ∧
    (cleanup_is_completed (some cpPastItemsNoReport) = true ∧
     !(pyStrip cpPastItemsNoReport.final_report).data.isEmpty = false) := by
  refine ⟨?_, ?_, fun _ => rfl, rfl, rfl⟩
  · intro ap p base store s hs
    unfold list_checkpoints at hs
    by_cases hpres : store.present
    · simp only [hpres, Bool.not_true, Bool.false_eq_true, if_false, ite_false] at hs
      revert hs
      cases hfind : store.dirs.find?
          (fun d => d.name == get_paper_identifier ap p "" store) with
      | none => intro hs; simp at hs
      | some d =>
        intro hs
        by_cases hdir : d.isDir
        · simp only [hdir, Bool.not_true, Bool.false_eq_true, if_false, ite_false] at hs
          rw [mem_sortSummariesDesc] at hs
          rcases List.mem_filterMap.mp hs with ⟨f, hf, hsum⟩
          refine ⟨d, List.mem_of_find?_eq_some hfind, f, hf, ?_⟩
          revert hsum
          by_cases hck : isCheckpointJson f.name
          · simp only [hck, if_true, ite_true]
            intro hsum
            rcases Option.map_eq_some'.mp hsum with ⟨data, hdata, hrfl⟩
            exact ⟨data, hdata, by rw [← hrfl]; rfl⟩
          · simp [hck]
        · simp [hdir] at hs
    · simp [hpres] at hs
  · intro now base store cp hcp
    unfold collect_checkpoints at hcp
    rcases List.mem_flatMap.mp hcp with ⟨d, hd, hfd⟩
    rcases List.mem_map.mp hfd with ⟨f, hf, hrfl⟩
    exact ⟨d, (List.mem_filter.mp hd).1, f, (List.mem_filter.mp hf).1,
      by rw [← hrfl]⟩

/-- C6 amended witness: the amended theorem applied to the concrete store —
the single listed summary is not completed (no final report) while the
retention manager's flag for the same file is true. -/
theorem list_completed_iff_final_report_witness :
    (summaryOf "checkpoints/2510.19555v1" filePastItems cpPastItemsNoReport ∈
      list_checkpoints id "2510.19555v1.pdf" "checkpoints" storePastItems) ∧
    (∃ d ∈ storePastItems.dirs, ∃ f ∈ d.files, ∃ data,
      f.content = some data ∧
      (summaryOf "checkpoints/2510.19555v1" filePastItems
        cpPastItemsNoReport).is_completed =
        !(pyStrip data.final_report).data.isEmpty) :=
  ⟨by decide,
   list_completed_iff_final_report.1 id "2510.19555v1.pdf" "checkpoints" storePastItems
     (summaryOf "checkpoints/2510.19555v1" filePastItems cpPastItemsNoReport)
     (by decide)⟩

/-! ## C10 — Listing totality and corrupt-file skipping -/

/-- C10: `list_checkpoints` and `find_latest_checkpoint` are total at the
public interface.  (i) The listing has exactly one summary per parseable
checkpoint-JSON file of the resolved subject directory — corrupt files are
skipped, not fatal; (ii) when the resolved subject entry is not a directory
both functions take their error exit and return `[]` and `none`;
(iii) concretely, a directory with one good and one corrupt snapshot lists
exactly the good one; (iv) `find_latest_checkpoint` never reads file
contents: it still returns the newest snapshot path when every snapshot is
corrupt. -/
theorem listing_total_and_corrupt_skipped :
    (∀ (ap : String → String) (p base : String) (store : Store) (d : DirEntry),
      store.dirs.find? (fun e => e.name == get_paper_identifier ap p "" store) = some d →
      d.isDir = true → store.present = true →
      (list_checkpoints ap p base store).length =
        (d.files.filter fun f => isCheckpointJson f.name && f.content.isSome).length) ∧
    (∀ (ap : String → String) (p base : String) (store : Store) (d : DirEntry),
      store.dirs.find? (fun e => e.name == get_paper_identifier ap p "" store) = some d →
      d.isDir = false →
      list_checkpoints ap p base store = [] ∧
      find_latest_checkpoint ap p base store = none) ∧
    (list_checkpoints id "2510.19555v1.pdf" "checkpoints" storeMixed =
      [summaryOf "checkpoints/2510.19555v1" fGoodFile cpUnfinished]) ∧
    (find_latest_checkpoint id "2510.19555v1.pdf" "checkpoints" storeAllCorrupt =
      some "checkpoints/2510.19555v1/checkpoint_q1a0_b.json") := by
  refine ⟨?_, ?_, rfl, rfl⟩
  · intro ap p base store d hfind hdir hpres
    unfold list_checkpoints
    simp only [hpres, hfind, hdir, Bool.not_true, Bool.false_eq_true, if_false, ite_false]
    rw [length_sortSummariesDesc, length_summary_filterMap]
  · intro ap p base store d hfind hdir
    by_cases hpres : store.present
    · constructor
      · unfold list_checkpoints
        simp [hpres, hfind, hdir]
      · unfold find_latest_checkpoint
        simp [hpres, hfind, hdir]
    · constructor
      · unfold list_checkpoints
        simp [hpres]
      · unfold find_latest_checkpoint
        simp [hpres]

/-- C10 witness: the totality statements applied at the concrete stores —
the mixed store lists one of its two snapshot files, and the
file-as-subject store yields the empty listing and no latest snapshot. -/
theorem listing_total_and_corrupt_skipped_witness :
    ((list_checkpoints id "2510.19555v1.pdf" "checkpoints" storeMixed).length =
      (dirMixed.files.filter fun f =>
        isCheckpointJson f.name && f.content.isSome).length) ∧
    (list_checkpoints id "2510.19555v1.pdf" "checkpoints" storeNotADir = [] ∧
     find_latest_checkpoint id "2510.19555v1.pdf" "checkpoints" storeNotADir = none) :=
  ⟨listing_total_and_corrupt_skipped.1 id "2510.19555v1.pdf" "checkpoints" storeMixed
     dirMixed (by decide) rfl rfl,
   listing_total_and_corrupt_skipped.2.1 id "2510.19555v1.pdf" "checkpoints" storeNotADir
     dirNotADir (by decide) rfl⟩

/-! ## C8 — The mirror is non-authoritative

`restrictStore` discards everything that is not a structured
`checkpoint_*.json` snapshot — in particular every human-readable
`readable_*.md` mirror, whatever its content.  `find_latest_checkpoint`
computes the same answer on the restricted store, so deleting or corrupting
mirror files can never affect it. -/

/-- The two filename tests of the source (written in either order) agree. -/
theorem ck_pred_eq (f : FileEntry) :
    (pyEndsWith f.name ".json" && pyStartsWith f.name "checkpoint_") =
    isCheckpointJson f.name := by
  simp [isCheckpointJson, Bool.and_comm]

/-- The first checkpoint file is unaffected by dropping non-snapshot files. -/
theorem firstCheckpointFile_filter (files : List FileEntry) :
    firstCheckpointFile (files.filter fun f => isCheckpointJson f.name) =
    firstCheckpointFile files := by
  unfold firstCheckpointFile
  rw [funext ck_pred_eq]
  exact find?_filter_self _ files

/-- The `findSome?` over a mapped list whose function is invariant under the
map. -/
theorem findSome?_map_invariant {α γ : Type _} (g : α → α) (f : α → Option γ)
    (h : ∀ a, f (g a) = f a) : ∀ l : List α, (l.map g).findSome? f = l.findSome? f := by
  intro l
  induction l with
  | nil => rfl
  | cons a l ih => simp [List.findSome?_cons, h a, ih]

/-- The `find?` over a mapped list whose predicate is invariant under the map. -/
theorem find?_map_invariant {α : Type _} (g : α → α) (p : α → Bool)
    (h : ∀ a, p (g a) = p a) :
    ∀ l : List α, (l.map g).find? p = (l.find? p).map g := by
  intro l
  induction l with
  | nil => rfl
  | cons a l ih =>
    by_cases hp : p a
    · simp [List.find?_cons, h a, hp]
    · simp [List.find?_cons, h a, hp, ih]

/-- The `filterMap` over a mapped list whose function is invariant under the
map. -/
theorem filterMap_map_invariant {α γ : Type _} (g : α → α) (f : α → Option γ)
    (h : ∀ a, f (g a) = f a) : ∀ l : List α, (l.map g).filterMap f = l.filterMap f := by
  intro l
  induction l with
  | nil => rfl
  | cons a l ih => simp [List.filterMap_cons, h a, ih]

/-- A directory probe sees the same data after mirror files are dropped. -/
theorem customDirHit_restrict (ap : String → String) (a : String) (d : DirEntry) :
    customDirHit ap a (restrictDir d) = customDirHit ap a d := by
  unfold customDirHit restrictDir
  simp [firstCheckpointFile_filter]

/-- Identifier reuse scanning is unaffected by mirror files. -/
theorem findExistingCustom_restrict (ap : String → String) (p : String) (s : Store) :
    findExistingCustom ap p (restrictStore s) = findExistingCustom ap p s := by
  unfold findExistingCustom
  dsimp only [restrictStore]
  rw [findSome?_map_invariant restrictDir (customDirHit ap (ap p))
    (customDirHit_restrict ap (ap p)) s.dirs]

/-- Fallback-ID allocation only reads directory names. -/
theorem get_next_custom_id_restrict (s : Store) :
    get_next_custom_id (restrictStore s) = get_next_custom_id s := by
  unfold get_next_custom_id
  dsimp only [restrictStore]
  rw [filterMap_map_invariant restrictDir
    (fun d => if pyStartsWith d.name "custom_" then
      pyToInt ((pySplit d.name '_').getD 1 "") else none)
    (fun d => rfl) s.dirs]

/-- The identifier resolver computes the same answer once mirror files are
dropped. -/
theorem get_paper_identifier_restrict (ap : String → String) (p c : String) (s : Store) :
    get_paper_identifier ap p c (restrictStore s) = get_paper_identifier ap p c s := by
  unfold get_paper_identifier
  cases extract_arxiv_id_from_filename p with
  | some arxiv_id => rfl
  | none =>
    cases (if !c.isEmpty then extract_arxiv_id_from_content c else none) with
    | some arxiv_id => rfl
    | none =>
      rw [findExistingCustom_restrict]
      cases findExistingCustom ap p s with
      | some dirname => rfl
      | none => exact get_next_custom_id_restrict s

/-- C8: (i) `save_readable_checkpoint` never propagates a failure — its body
runs inside `try/except Exception` which logs and returns `None`
(checkpoint.py lines 506-508), so for every injected effect the call returns
normally, and any failing mirror write yields `None`; (ii) mirror
independence — `find_latest_checkpoint` computes the same result on the
store restricted to structured snapshots, so deleting or corrupting
`readable_*.md` files cannot affect which snapshot a resume loads
(`find_latest_checkpoint` never reads mirror files). -/
theorem mirror_is_nonauthoritative :
    (∀ (ap : String → String) (base : String) (store : Store) (eff : SaveEffects)
      (nowStr tsFile : String) (state : PState),
      ∃ r, save_readable_checkpoint ap base store eff nowStr tsFile state = .ok r) ∧
    (∀ (ap : String → String) (base : String) (store : Store)
      (mk : Except String Unit) (meta : Option PdfMetadata) (e : String)
      (nowStr tsFile : String) (state : PState),
      save_readable_checkpoint ap base store
        { mkdirResult := mk, writeResult := .error e, pdfMeta := meta }
        nowStr tsFile state = .ok none) ∧
    (∀ (ap : String → String) (p base : String) (store : Store),
      find_latest_checkpoint ap p base (restrictStore store) =
      find_latest_checkpoint ap p base store) := by
  refine ⟨?_, ?_, ?_⟩
  · intro ap base store eff nowStr tsFile state
    unfold save_readable_checkpoint
    cases save_readable_checkpoint_body ap base store eff nowStr tsFile state with
    | ok r => exact ⟨some r, rfl⟩
    | error e => exact ⟨none, rfl⟩
  · intro ap base store mk meta e nowStr tsFile state
    unfold save_readable_checkpoint save_readable_checkpoint_body
    cases get_checkpoint_dir_for_paper ap base store mk state.paper_path
      state.paper_content <;> rfl
  · intro ap p base store
    have hdirs : (store.dirs.map restrictDir).find?
        (fun d => d.name == get_paper_identifier ap p "" store) =
        (store.dirs.find? (fun d => d.name == get_paper_identifier ap p "" store)).map
          restrictDir :=
      find?_map_invariant restrictDir
        (fun d => d.name == get_paper_identifier ap p "" store) (fun d => rfl) store.dirs
    unfold find_latest_checkpoint
    rw [get_paper_identifier_restrict]
    dsimp only [restrictStore]
    rw [hdirs]
    cases store.dirs.find? (fun d => d.name == get_paper_identifier ap p "" store) with
    | none => rfl
    | some d =>
      dsimp only [Option.map_some', restrictDir]
      rw [filter_idem]

end PaperReading
